import Mathlib

/-!
Shallow embedding of the smart-task-planner backend (Python/FastAPI) in Lean 4,
covering the task-analysis heuristics (app/services/ai_service.py), the remote
call wrapper with its retry behaviour, the analysis endpoints' input-length
gate (app/routers/ai.py, app/schemas.py) and the bearer-token authentication
dependency (app/routers/auth.py, app/core/security.py, app/core/config.py).

Machine conventions of the embedding:
  * Python str values are Lean String; str.lower() is modelled character-wise
    for the alphabets that occur in this code base (ASCII and Cyrillic);
    the substring operator of Python (needle in haystack) is modelled on the
    underlying character lists; len and str.strip() are modelled on the
    character lists as well.
  * Python int is Lean Int where a value can meaningfully be negative
    (minutes passed to the priority function), Nat for counters and codes.
  * the network is modelled as an oracle mapping the index of each HTTP
    request the process issues to the response it observes; a coroutine
    sleep is recorded in a trace rather than performed.
  * raised exceptions are modelled with Except / Option result types.
-/

namespace STP

/-! ## Text primitives (models of Python str operations) -/

/-- Model of Python str.lower() on one character, for the alphabets appearing
in this repository: ASCII letters A-Z, Cyrillic А-Я (U+0410-U+042F, lowered by
adding 0x20) and Ё (U+0401, lowered to U+0451).  Any other character is kept
unchanged, as str.lower() keeps digits, punctuation and already-lowercase
letters unchanged. -/
def lowerChar (c : Char) : Char :=
  let n := c.toNat
  if 0x41 ≤ n ∧ n ≤ 0x5A then Char.ofNat (n + 0x20)
  else if 0x410 ≤ n ∧ n ≤ 0x42F then Char.ofNat (n + 0x20)
  else if n = 0x401 then Char.ofNat 0x451
  else c

/-- Model of Python str.lower() on a whole string. -/
def strLower (s : String) : String := String.mk (s.data.map lowerChar)

/-- Does the character list start with the needle and otherwise recurse: the
worker behind the Python substring operator. -/
def substrList (needle : List Char) : List Char → Bool
  | [] => needle.isEmpty
  | c :: rest => needle.isPrefixOf (c :: rest) || substrList needle rest

/-- Model of the Python expression (needle in hay) on strings. -/
def containsSub (hay : String) (needle : String) : Bool :=
  substrList needle.data hay.data

/-- Model of the Python expression any(word in hay for word in words). -/
def anyWordIn (words : List String) (hay : String) : Bool :=
  words.any (fun w => containsSub hay w)

/-- Model of Python str.strip() on the character list: drop whitespace from
both ends. -/
def stripChars (l : List Char) : List Char :=
  ((l.dropWhile Char.isWhitespace).reverse.dropWhile Char.isWhitespace).reverse

/-- Model of Python str.strip() on strings. -/
def pyStrip (s : String) : String := String.mk (stripChars s.data)

/-- Model of Python len() on strings (number of characters). -/
def pyLen (s : String) : Nat := s.data.length

/-! ## Enumerations (app/schemas.py) -/

/-- TaskCategoryEnum of app/schemas.py. -/
inductive TaskCategoryEnum where
  | WORK
  | PERSONAL
  | HEALTH
  | LEARNING
  | OTHER
deriving DecidableEq

/-- String value carried by each TaskCategoryEnum member. -/
def TaskCategoryEnum.value : TaskCategoryEnum → String
  | .WORK => "работа"
  | .PERSONAL => "личное"
  | .HEALTH => "здоровье"
  | .LEARNING => "обучение"
  | .OTHER => "другое"

/-- TaskPriorityEnum of app/schemas.py. -/
inductive TaskPriorityEnum where
  | LOW
  | MEDIUM
  | HIGH
deriving DecidableEq

/-! ## Configuration (app/core/config.py) -/

/-- Settings of app/core/config.py (the fields this development needs). -/
structure Settings where
  SECRET_KEY : String
  ALGORITHM : String
  ACCESS_TOKEN_EXPIRE_MINUTES : Nat
  AI_API_KEY : Option String
  AI_API_URL : String
  AI_MODEL : String
deriving DecidableEq

/-- Default Settings() instance built in app/core/config.py. -/
def settings : Settings :=
  { SECRET_KEY := "your-secret-key-change-in-production-12345"
    ALGORITHM := "HS256"
    ACCESS_TOKEN_EXPIRE_MINUTES := 30
    AI_API_KEY := none
    AI_API_URL := "https://api.openai.com/v1/chat/completions"
    AI_MODEL := "gpt-3.5-turbo" }

/-! ## Deterministic heuristics (app/services/ai_service.py) -/

/-- Keyword stems for the work category (line 160 of ai_service.py). -/
def work_words : List String :=
  ["работ", "проект", "клиент", "отчет", "презентац", "бизнес", "офис", "совещан"]

/-- Keyword stems for the personal category (line 161 of ai_service.py). -/
def personal_words : List String :=
  ["личн", "семь", "друз", "хобби", "отдых", "развлек", "покупк"]

/-- Keyword stems for the health category (line 162 of ai_service.py). -/
def health_words : List String :=
  ["спорт", "трен", "здоров", "врач", "больниц", "медиц", "упраж", "диет"]

/-- Keyword stems for the learning category (line 163 of ai_service.py). -/
def learning_words : List String :=
  ["учит", "курс", "книг", "лекц", "образов", "школ", "универ", "тренинг"]

/-- AIService._get_mock_category: lowercase the description, return the first
category in the fixed order work, personal, health, learning whose keyword
set has a stem occurring as a substring, else OTHER. -/
def _get_mock_category (description : String) : TaskCategoryEnum :=
  let description_lower := strLower description
  if anyWordIn work_words description_lower then .WORK
  else if anyWordIn personal_words description_lower then .PERSONAL
  else if anyWordIn health_words description_lower then .HEALTH
  else if anyWordIn learning_words description_lower then .LEARNING
  else .OTHER

/-- AIService._get_mock_estimated_time: lowercase the description and test the
duration buckets in the fixed order of the source, returning the first hit,
30 when none hits. -/
def _get_mock_estimated_time (description : String) : Int :=
  let description_lower := strLower description
  if anyWordIn ["минут", "быстр", "срочн"] description_lower then 15
  else if anyWordIn ["час", "лекц", "встреч"] description_lower then 60
  else if anyWordIn ["полдня", "4 час", "нескольк час"] description_lower then 240
  else if anyWordIn ["день", "сутк"] description_lower then 480
  else if anyWordIn ["больш", "сложн", "проект", "диплом"] description_lower then 120
  else 30

/-- AIService._determine_priority: minutes below or at 15 give LOW, at most 60
give MEDIUM, anything larger HIGH. -/
def _determine_priority (minutes : Int) : TaskPriorityEnum :=
  if minutes ≤ 15 then .LOW
  else if minutes ≤ 60 then .MEDIUM
  else .HIGH

/-- Template returned by _generate_subtasks when the text contains a
writing/creation verb. -/
def writing_template : List String :=
  ["📝 Исследовать требования",
   "📋 Составить план",
   "✍️ Подготовить черновик",
   "👀 Сделать ревью"]

/-- Template returned by _generate_subtasks when the text contains a
meeting/call noun and no writing/creation verb. -/
def meeting_template : List String :=
  ["📅 Подготовить повестку",
   "👥 Пригласить участников",
   "🎯 Провести встречу",
   "📝 Записать решения"]

/-- Generic template returned by _generate_subtasks when no pattern matches. -/
def generic_template : List String :=
  ["🚀 Начать работу",
   "⚙️ Выполнить основную часть",
   "✅ Проверить результат",
   "🏁 Завершить"]

/-- AIService._generate_subtasks: pattern-match on the lowercased description
for writing/creation verbs, then meeting/call nouns, else generic. -/
def _generate_subtasks (description : String) : List String :=
  let desc := strLower description
  if containsSub desc "написать" || containsSub desc "создать" then writing_template
  else if containsSub desc "встреча" || containsSub desc "звонок" then meeting_template
  else generic_template

/-! ## Remote call wrapper (AIService._call_ai_api and its tenacity decorator)

The network is an oracle remote : Nat → RemoteResp giving the response the
process observes for its k-th HTTP POST (k counted from 0 across the whole
invocation).  Results carry a trace: the number of requests issued and the
list of sleep durations (seconds) in order. -/

/-- Response observed for one HTTP request: a client timeout
(httpx.TimeoutException), a 2xx reply whose body parses to some textual
content (none models the unexpected-format reply that returns None at line
121), or a non-2xx status code for which response.raise_for_status() would
raise httpx.HTTPStatusError. -/
inductive RemoteResp where
  | timeout
  | ok (content : Option String)
  | status (code : Nat)

/-- Exceptions that AIService code can raise across function boundaries:
AIQuotaExceededError, AITimeoutError and fastapi.HTTPException with a status
code and detail string. -/
inductive AIError where
  | quotaExceeded (msg : String)
  | timeoutErr (msg : String)
  | httpException (status_code : Nat) (detail : String)
deriving DecidableEq

/-- Result of one invocation of the body of _call_ai_api: the returned
optional text, or the exception it raises. -/
inductive CallResult where
  | success (content : Option String)
  | failure (e : AIError)
deriving DecidableEq

/-- The while-loop of _call_ai_api (lines 84-153), one constructor case per
response kind.  Arguments: the oracle, max_retries, the current 1-based
attempt number, the index of the next HTTP request, and fuel bounding the
remaining iterations (the caller supplies max_retries, and every iteration
increments attempt by exactly one, so fuel mirrors the loop condition
attempt less-or-equal max_retries).  Returns the loop's outcome, the number
of requests issued and the sleeps performed, in order:
  * a 2xx reply returns its parsed content (None for an unexpected shape);
  * a 402 raises AIQuotaExceededError, which the generic except-clause at
    line 142 of the same try-statement catches: at the last attempt it
    raises HTTPException(500, "AI service unavailable"), otherwise the
    fall-through code sleeps 2^(attempt+1) seconds and iterates;
  * a 429 before the last attempt sleeps 2^attempt seconds and continues
    (the continue skips the fall-through sleep); at the last attempt it
    falls through to raise_for_status, whose HTTPStatusError is mapped by
    the except-clause at line 128 to HTTPException(502, ...);
  * any other non-2xx status raises HTTPStatusError: when it is 500+ and
    attempts remain the handler sleeps 2^attempt seconds and then the
    fall-through sleeps 2^(attempt+1) more; otherwise it raises
    HTTPException(502, "AI service error: <code>");
  * a timeout at the last attempt raises AITimeoutError, otherwise the
    fall-through sleeps 2^(attempt+1) seconds and iterates. -/
def callLoop (remote : Nat → RemoteResp) (max_retries : Nat) :
    Nat → Nat → Nat → CallResult × Nat × List Nat
  | _, _, 0 => (.success none, 0, [])
  | attempt, k, fuel + 1 =>
    match remote k with
    | .ok content => (.success content, 1, [])
    | .timeout =>
      if attempt = max_retries then
        (.failure (.timeoutErr "AI service timeout after multiple retries"), 1, [])
      else
        let (res, reqs, sleeps) := callLoop remote max_retries (attempt + 1) (k + 1) fuel
        (res, reqs + 1, 2 ^ (attempt + 1) :: sleeps)
    | .status code =>
      if code = 402 then
        if attempt = max_retries then
          (.failure (.httpException 500 "AI service unavailable"), 1, [])
        else
          let (res, reqs, sleeps) := callLoop remote max_retries (attempt + 1) (k + 1) fuel
          (res, reqs + 1, 2 ^ (attempt + 1) :: sleeps)
      else if code = 429 then
        if attempt < max_retries then
          let (res, reqs, sleeps) := callLoop remote max_retries (attempt + 1) (k + 1) fuel
          (res, reqs + 1, 2 ^ attempt :: sleeps)
        else
          (.failure (.httpException 502 ("AI service error: " ++ toString code)), 1, [])
      else if 500 ≤ code ∧ attempt < max_retries then
        let (res, reqs, sleeps) := callLoop remote max_retries (attempt + 1) (k + 1) fuel
        (res, reqs + 1, 2 ^ attempt :: 2 ^ (attempt + 1) :: sleeps)
      else
        (.failure (.httpException 502 ("AI service error: " ++ toString code)), 1, [])

/-- Is an escaping exception in the retry list of the tenacity decorator at
lines 47-54 (httpx.TimeoutException, httpx.HTTPStatusError, AITimeoutError)?
Of the exceptions that can escape the function body only AITimeoutError is;
HTTPException is not in the list. -/
def tenacityRetryable : AIError → Bool
  | .timeoutErr _ => true
  | _ => false

/-- Wait produced by wait_exponential(multiplier=1, min=2, max=10) after the
n-th failed invocation (modelled from the decorator's parameters: an
exponentially growing wait clamped to the interval from 2 to 10 seconds). -/
def tenacityWait (n : Nat) : Nat := min 10 (max 2 (2 ^ n))

/-- The tenacity decorator retry(stop=stop_after_attempt(3), ...): invoke the
function body; when it raises a retryable exception and invocations remain,
sleep the exponential wait and invoke it again; after the third failed
invocation the exception propagates.  Arguments: oracle, max_retries of the
inner loop, index of the next HTTP request, 1-based invocation number, and
remaining invocations (3 at entry, from stop_after_attempt(3)). -/
def tenacityLoop (remote : Nat → RemoteResp) (max_retries : Nat) :
    Nat → Nat → Nat → CallResult × Nat × List Nat
  | _, _, 0 => (.success none, 0, [])
  | k, inv, fuel + 1 =>
    let (res, reqs, sleeps) := callLoop remote max_retries 1 k max_retries
    match res with
    | .success c => (.success c, reqs, sleeps)
    | .failure e =>
      if tenacityRetryable e ∧ fuel ≠ 0 then
        let (res2, reqs2, sleeps2) := tenacityLoop remote max_retries (k + reqs) (inv + 1) fuel
        (res2, reqs + reqs2, sleeps ++ tenacityWait inv :: sleeps2)
      else
        (.failure e, reqs, sleeps)

/-! ## The AI service object (AIService.__init__ and its methods) -/

/-- Fields of an AIService instance set by __init__. -/
structure AIService where
  api_key : Option String
  api_url : String
  model : String
  use_mock : Bool
  timeout : Nat
  max_retries : Nat
deriving DecidableEq

/-- AIService.__init__ (lines 34-45): copies the AI settings from the
configuration and unconditionally sets use_mock to true, timeout to 15
seconds and max_retries to 3. -/
def AIService.init (cfg : Settings) : AIService :=
  { api_key := cfg.AI_API_KEY
    api_url := cfg.AI_API_URL
    model := cfg.AI_MODEL
    use_mock := true
    timeout := 15
    max_retries := 3 }

/-- AIService._call_ai_api including its decorator: in mock mode return None
at once without touching the network; otherwise run the decorated retry
loops. -/
def AIService._call_ai_api (svc : AIService) (remote : Nat → RemoteResp) :
    CallResult × Nat × List Nat :=
  if svc.use_mock then (.success none, 0, [])
  else tenacityLoop remote svc.max_retries 0 1 3

/-- Parsing of the live categorization reply (lines 218-228): strip, lower,
then test the four stems in order, defaulting to OTHER. -/
def parseCategoryResponse (response : String) : TaskCategoryEnum :=
  let r := strLower (pyStrip response)
  if containsSub r "работ" then .WORK
  else if containsSub r "личн" then .PERSONAL
  else if containsSub r "здоров" then .HEALTH
  else if containsSub r "обуч" then .LEARNING
  else .OTHER

/-- Leading digit run of a character list, once a digit has been found. -/
def takeDigits : List Char → List Char
  | [] => []
  | c :: rest => if c.isDigit then c :: takeDigits rest else []

/-- First maximal digit run of a character list: models
re.findall(r"\d+", response)[0] when present. -/
def firstDigitRun : List Char → Option (List Char)
  | [] => none
  | c :: rest => if c.isDigit then some (c :: takeDigits rest) else firstDigitRun rest

/-- Numeric value of a digit run. -/
def digitsToNat (l : List Char) : Nat :=
  l.foldl (fun acc c => acc * 10 + (c.toNat - 48)) 0

/-- First integer of the reply text, as int(re.findall(r"\d+", response)[0]). -/
def firstNumber (s : String) : Option Nat :=
  (firstDigitRun s.data).map digitsToNat

/-- AIService.categorize_task (lines 194-237), returning the category and the
number of HTTP requests issued.  In mock mode it returns the heuristic with
no network traffic.  Live, it calls _call_ai_api: a truthy reply is parsed,
a falsy reply (None or the empty string) and every raised exception fall
back to the heuristic — the except-clauses at lines 230-235 catch
AIQuotaExceededError, AITimeoutError and every other Exception alike. -/
def categorize_task (svc : AIService) (remote : Nat → RemoteResp)
    (description : String) : TaskCategoryEnum × Nat :=
  if svc.use_mock then (_get_mock_category description, 0)
  else
    match AIService._call_ai_api svc remote with
    | (.success (some response), reqs, _) =>
      if response = "" then (_get_mock_category description, reqs)
      else (parseCategoryResponse response, reqs)
    | (.success none, reqs, _) => (_get_mock_category description, reqs)
    | (.failure _, reqs, _) => (_get_mock_category description, reqs)

/-- AIService.estimate_time (lines 239-267), returning the minute estimate and
the number of HTTP requests issued.  Live, a reply containing a number is
clamped into the interval from 1 to 1440; otherwise, and on every raised
exception, the heuristic result is returned. -/
def estimate_time (svc : AIService) (remote : Nat → RemoteResp)
    (description : String) : Int × Nat :=
  if svc.use_mock then (_get_mock_estimated_time description, 0)
  else
    match AIService._call_ai_api svc remote with
    | (.success (some response), reqs, _) =>
      if response = "" then (_get_mock_estimated_time description, reqs)
      else
        match firstNumber response with
        | some minutes => (max 1 (min (minutes : Int) 1440), reqs)
        | none => (_get_mock_estimated_time description, reqs)
    | (.success none, reqs, _) => (_get_mock_estimated_time description, reqs)
    | (.failure _, reqs, _) => (_get_mock_estimated_time description, reqs)

/-! ## Comprehensive analysis (AIService.analyze_task) -/

/-- Text analysed by analyze_task (line 278): the title followed by a period
and the description when a truthy (non-None, non-empty) title is given,
otherwise the description alone. -/
def full_text (title : Option String) (description : String) : String :=
  match title with
  | some t => if t = "" then description else t ++ ". " ++ description
  | none => description

/-- The transient analysis result dictionary built by analyze_task. -/
structure AnalysisResult where
  category : TaskCategoryEnum
  estimated_time : Int
  subtasks : List String
  suggested_priority : TaskPriorityEnum
  tips : List String
deriving DecidableEq

/-- Lines 285-316 of analyze_task: given the two outcomes delivered by
asyncio.gather(..., return_exceptions=True) — a value, or the exception a
branch raised, modelled as Except — substitute the deterministic heuristic
on the same full text for a failed branch only, generate subtasks from the
full text, surface the first three, and derive the priority from the
duration estimate after substitution. -/
def analyze_gather (full : String) (catRes : Except AIError TaskCategoryEnum)
    (timeRes : Except AIError Int) : AnalysisResult :=
  let category := match catRes with
    | .ok c => c
    | .error _ => _get_mock_category full
  let estimated_time := match timeRes with
    | .ok t => t
    | .error _ => _get_mock_estimated_time full
  let subtasks := _generate_subtasks full
  let priority := _determine_priority estimated_time
  { category := category
    estimated_time := estimated_time
    subtasks := subtasks.take 3
    suggested_priority := priority
    tips := ["⏱️ На выполнение уйдет примерно " ++ toString estimated_time ++ " минут",
             "📂 Категория: " ++ category.value,
             "🎯 Начните с самого важного"] }

/-- AIService.analyze_task (lines 269-316) over the outcomes of its two
gathered branches: build the full text from description and optional title
and combine the branch outcomes as analyze_gather does. -/
def analyze_task (description : String) (title : Option String)
    (catRes : Except AIError TaskCategoryEnum) (timeRes : Except AIError Int) :
    AnalysisResult :=
  analyze_gather (full_text title description) catRes timeRes

/-- The analyze_task pipeline as executed: the two gathered branches are the
service's own categorize_task and estimate_time on the full text, each with
its own request oracle; in the embedded semantics both are total (they catch
every exception), so both outcomes reach the gather as values.  The second
component counts the HTTP requests issued. -/
def analyze_task_run (svc : AIService) (remoteC remoteT : Nat → RemoteResp)
    (description : String) (title : Option String) : AnalysisResult × Nat :=
  let full := full_text title description
  let (category, reqsC) := categorize_task svc remoteC full
  let (minutes, reqsT) := estimate_time svc remoteT full
  (analyze_gather full (.ok category) (.ok minutes), reqsC + reqsT)

/-! ## Input-length gate of the analysis endpoints (app/routers/ai.py,
app/schemas.py) -/

/-- Outcome of the validation layers a request passes before reaching the
service: schema violation (FastAPI answers 422), the handler's explicit
400 for a too-short description, or acceptance. -/
inductive RequestCheck where
  | rejected422
  | rejected400
  | accepted
deriving DecidableEq

/-- Pydantic validation of AIAnalysisRequest (schemas.py lines 128-130):
task_description needs between 10 and 2000 characters, an optional
task_title at most 200. -/
def ai_analysis_request_valid (task_description : String)
    (task_title : Option String) : Bool :=
  decide (10 ≤ pyLen task_description) && decide (pyLen task_description ≤ 2000) &&
    (match task_title with
     | none => true
     | some t => decide (pyLen t ≤ 200))

/-- Validation pipeline of POST /ai/categorize (ai.py lines 23-27): schema
validation first, then the handler's check that the description is truthy
and its stripped form has at least 5 characters. -/
def categorize_length_check (task_description : String)
    (task_title : Option String) : RequestCheck :=
  if ai_analysis_request_valid task_description task_title = false then .rejected422
  else if task_description = "" ∨ pyLen (pyStrip task_description) < 5 then .rejected400
  else .accepted

/-- Validation pipeline of POST /ai/estimate-time (ai.py lines 42-46),
textually identical to the categorize handler's check. -/
def estimate_time_length_check (task_description : String)
    (task_title : Option String) : RequestCheck :=
  if ai_analysis_request_valid task_description task_title = false then .rejected422
  else if task_description = "" ∨ pyLen (pyStrip task_description) < 5 then .rejected400
  else .accepted

/-- Validation pipeline of POST /ai/analyze (ai.py lines 66-70): the same
schema validation, then the handler's 10-character threshold on the stripped
description. -/
def analyze_length_check (task_description : String)
    (task_title : Option String) : RequestCheck :=
  if ai_analysis_request_valid task_description task_title = false then .rejected422
  else if task_description = "" ∨ pyLen (pyStrip task_description) < 10 then .rejected400
  else .accepted

/-! ## Token issue and verification (app/core/security.py,
app/routers/auth.py) -/

/-- User record (app/schemas.py lines 34-43), reduced to the fields the
authentication dependency reads. -/
structure User where
  id : Nat
  username : String
deriving DecidableEq

/-- Payload of a JWT: the optional sub claim and the absolute expiry time in
minutes. -/
structure TokenPayload where
  sub : Option String
  exp : Nat
deriving DecidableEq

/-- A bearer token as the verifier sees it: either structurally malformed, or
well-formed and signed with some key and algorithm over a payload. -/
inductive Token where
  | malformed
  | signed (key : String) (alg : String) (payload : TokenPayload)
deriving DecidableEq

/-- Model of jose jwt.decode(token, key, algorithms=[alg]) at time now
(minutes): decoding succeeds and yields the payload exactly when the token
is well-formed, was signed with the same key and algorithm, and its exp
claim lies in the future; every other case raises JWTError, modelled as
none. -/
def jwt_decode (key : String) (alg : String) (now : Nat) : Token → Option TokenPayload
  | .malformed => none
  | .signed k a p => if k = key ∧ a = alg ∧ now < p.exp then some p else none

/-- create_access_token (security.py lines 44-49): sign the subject with the
configured secret and algorithm, expiring ACCESS_TOKEN_EXPIRE_MINUTES after
the issue time. -/
def create_access_token (cfg : Settings) (now : Nat) (subject : String) : Token :=
  .signed cfg.SECRET_KEY cfg.ALGORITHM
    { sub := some subject, exp := now + cfg.ACCESS_TOKEN_EXPIRE_MINUTES }

/-- The fastapi HTTPException value, reduced to status code and detail. -/
structure HTTPError where
  status_code : Nat
  detail : String
deriving DecidableEq

/-- The single credentials_exception raised by get_current_user (auth.py
lines 20-24). -/
def credentials_exception : HTTPError :=
  { status_code := 401, detail := "Could not validate credentials" }

/-- get_current_user (auth.py lines 16-41): decode the bearer token with the
configured secret; a decode failure, a missing sub claim, or the absence of
a user whose username equals the sub claim each raise the one
credentials_exception; otherwise the first matching user is returned.  The
database query is modelled as the first match in the list of user rows. -/
def get_current_user (cfg : Settings) (users : List User) (now : Nat)
    (token : Token) : Except HTTPError User :=
  match jwt_decode cfg.SECRET_KEY cfg.ALGORITHM now token with
  | none => .error credentials_exception
  | some payload =>
    match payload.sub with
    | none => .error credentials_exception
    | some username =>
      match users.find? (fun u => u.username == username) with
      | none => .error credentials_exception
      | some user => .ok user

/-! ## Theorems -/

/-- C4: for every input text, the mock categorizer lowercases the text and
returns WORK exactly when a work stem occurs as a substring, else PERSONAL
exactly when a personal stem occurs, else HEALTH, else LEARNING, in that
fixed precedence, and OTHER exactly when no stem of any set occurs; and the
result of two texts agrees whenever the four set-hit flags agree, so only
which sets are hit — never the position of a stem — determines the result. -/
theorem c4_mock_category_precedence (d d' : String) :
    ((_get_mock_category d = .WORK) ↔ anyWordIn work_words (strLower d) = true) ∧
    ((_get_mock_category d = .PERSONAL) ↔
      (anyWordIn work_words (strLower d) = false ∧
       anyWordIn personal_words (strLower d) = true)) ∧
    ((_get_mock_category d = .HEALTH) ↔
      (anyWordIn work_words (strLower d) = false ∧
       anyWordIn personal_words (strLower d) = false ∧
       anyWordIn health_words (strLower d) = true)) ∧
    ((_get_mock_category d = .LEARNING) ↔
      (anyWordIn work_words (strLower d) = false ∧
       anyWordIn personal_words (strLower d) = false ∧
       anyWordIn health_words (strLower d) = false ∧
       anyWordIn learning_words (strLower d) = true)) ∧
    ((_get_mock_category d = .OTHER) ↔
      (anyWordIn work_words (strLower d) = false ∧
       anyWordIn personal_words (strLower d) = false ∧
       anyWordIn health_words (strLower d) = false ∧
       anyWordIn learning_words (strLower d) = false)) ∧
    ((anyWordIn work_words (strLower d) = anyWordIn work_words (strLower d') ∧
      anyWordIn personal_words (strLower d) = anyWordIn personal_words (strLower d') ∧
      anyWordIn health_words (strLower d) = anyWordIn health_words (strLower d') ∧
      anyWordIn learning_words (strLower d) = anyWordIn learning_words (strLower d')) →
      _get_mock_category d = _get_mock_category d') := by
  have hrep : ∀ s : String, _get_mock_category s =
      (if anyWordIn work_words (strLower s) = true then TaskCategoryEnum.WORK
       else if anyWordIn personal_words (strLower s) = true then .PERSONAL
       else if anyWordIn health_words (strLower s) = true then .HEALTH
       else if anyWordIn learning_words (strLower s) = true then .LEARNING
       else .OTHER) := fun _ => rfl
  refine ⟨?_, ?_, ?_, ?_, ?_, ?_⟩
  · rw [hrep]
    cases h1 : anyWordIn work_words (strLower d) <;>
      cases h2 : anyWordIn personal_words (strLower d) <;>
      cases h3 : anyWordIn health_words (strLower d) <;>
      cases h4 : anyWordIn learning_words (strLower d) <;> decide
  · rw [hrep]
    cases h1 : anyWordIn work_words (strLower d) <;>
      cases h2 : anyWordIn personal_words (strLower d) <;>
      cases h3 : anyWordIn health_words (strLower d) <;>
      cases h4 : anyWordIn learning_words (strLower d) <;> decide
  · rw [hrep]
    cases h1 : anyWordIn work_words (strLower d) <;>
      cases h2 : anyWordIn personal_words (strLower d) <;>
      cases h3 : anyWordIn health_words (strLower d) <;>
      cases h4 : anyWordIn learning_words (strLower d) <;> decide
  · rw [hrep]
    cases h1 : anyWordIn work_words (strLower d) <;>
      cases h2 : anyWordIn personal_words (strLower d) <;>
      cases h3 : anyWordIn health_words (strLower d) <;>
      cases h4 : anyWordIn learning_words (strLower d) <;> decide
  · rw [hrep]
    cases h1 : anyWordIn work_words (strLower d) <;>
      cases h2 : anyWordIn personal_words (strLower d) <;>
      cases h3 : anyWordIn health_words (strLower d) <;>
      cases h4 : anyWordIn learning_words (strLower d) <;> decide
  · rintro ⟨e1, e2, e3, e4⟩
    rw [hrep, hrep, e1, e2, e3, e4]

/-- C5: for every input text, the mock duration estimator tests the
lowercased text against its buckets in the fixed order short-duration 15,
hour/meeting 60, half-day 240, full-day 480, complexity 120, with 30 when
nothing matches; only the first matching bucket applies, and the result
always lies between 1 and 1440. -/
theorem c5_mock_estimate_buckets (d : String) :
    ((_get_mock_estimated_time d = 15) ↔
      anyWordIn ["минут", "быстр", "срочн"] (strLower d) = true) ∧
    ((_get_mock_estimated_time d = 60) ↔
      (anyWordIn ["минут", "быстр", "срочн"] (strLower d) = false ∧
       anyWordIn ["час", "лекц", "встреч"] (strLower d) = true)) ∧
    ((_get_mock_estimated_time d = 240) ↔
      (anyWordIn ["минут", "быстр", "срочн"] (strLower d) = false ∧
       anyWordIn ["час", "лекц", "встреч"] (strLower d) = false ∧
       anyWordIn ["полдня", "4 час", "нескольк час"] (strLower d) = true)) ∧
    ((_get_mock_estimated_time d = 480) ↔
      (anyWordIn ["минут", "быстр", "срочн"] (strLower d) = false ∧
       anyWordIn ["час", "лекц", "встреч"] (strLower d) = false ∧
       anyWordIn ["полдня", "4 час", "нескольк час"] (strLower d) = false ∧
       anyWordIn ["день", "сутк"] (strLower d) = true)) ∧
    ((_get_mock_estimated_time d = 120) ↔
      (anyWordIn ["минут", "быстр", "срочн"] (strLower d) = false ∧
       anyWordIn ["час", "лекц", "встреч"] (strLower d) = false ∧
       anyWordIn ["полдня", "4 час", "нескольк час"] (strLower d) = false ∧
       anyWordIn ["день", "сутк"] (strLower d) = false ∧
       anyWordIn ["больш", "сложн", "проект", "диплом"] (strLower d) = true)) ∧
    ((_get_mock_estimated_time d = 30) ↔
      (anyWordIn ["минут", "быстр", "срочн"] (strLower d) = false ∧
       anyWordIn ["час", "лекц", "встреч"] (strLower d) = false ∧
       anyWordIn ["полдня", "4 час", "нескольк час"] (strLower d) = false ∧
       anyWordIn ["день", "сутк"] (strLower d) = false ∧
       anyWordIn ["больш", "сложн", "проект", "диплом"] (strLower d) = false)) ∧
    1 ≤ _get_mock_estimated_time d ∧ _get_mock_estimated_time d ≤ 1440 := by
  have hrep : _get_mock_estimated_time d =
      (if anyWordIn ["минут", "быстр", "срочн"] (strLower d) = true then (15 : Int)
       else if anyWordIn ["час", "лекц", "встреч"] (strLower d) = true then 60
       else if anyWordIn ["полдня", "4 час", "нескольк час"] (strLower d) = true then 240
       else if anyWordIn ["день", "сутк"] (strLower d) = true then 480
       else if anyWordIn ["больш", "сложн", "проект", "диплом"] (strLower d) = true then 120
       else 30) := rfl
  rw [hrep]
  cases h1 : anyWordIn ["минут", "быстр", "срочн"] (strLower d) <;>
    cases h2 : anyWordIn ["час", "лекц", "встреч"] (strLower d) <;>
    cases h3 : anyWordIn ["полдня", "4 час", "нескольк час"] (strLower d) <;>
    cases h4 : anyWordIn ["день", "сутк"] (strLower d) <;>
    cases h5 : anyWordIn ["больш", "сложн", "проект", "диплом"] (strLower d) <;> decide

/-- C6: the priority function is a pure function of the integer minute count
with LOW exactly on minutes at most 15, MEDIUM exactly strictly between 15
and at most 60, HIGH exactly above 60, and the boundary values 15, 16, 60
and 61 map to LOW, MEDIUM, MEDIUM and HIGH. -/
theorem c6_priority_thresholds (m : Int) :
    ((_determine_priority m = .LOW) ↔ m ≤ 15) ∧
    ((_determine_priority m = .MEDIUM) ↔ (15 < m ∧ m ≤ 60)) ∧
    ((_determine_priority m = .HIGH) ↔ 60 < m) ∧
    _determine_priority 15 = .LOW ∧
    _determine_priority 16 = .MEDIUM ∧
    _determine_priority 60 = .MEDIUM ∧
    _determine_priority 61 = .HIGH := by
  refine ⟨?_, ?_, ?_, by decide, by decide, by decide, by decide⟩ <;>
    · unfold _determine_priority
      split_ifs with h1 h2 <;> simp <;> omega

/-- C7: for every input text, the subtask generator returns the writing
template exactly when the lowercased text contains a writing/creation verb,
the meeting template exactly when it contains a meeting/call noun and no
writing verb, and the generic template otherwise; every template has 4
entries and every analysis result surfaces exactly its first 3. -/
theorem c7_subtask_templates (d : String) :
    ((_generate_subtasks d = writing_template) ↔
      (containsSub (strLower d) "написать" || containsSub (strLower d) "создать") = true) ∧
    ((_generate_subtasks d = meeting_template) ↔
      ((containsSub (strLower d) "написать" || containsSub (strLower d) "создать") = false ∧
       (containsSub (strLower d) "встреча" || containsSub (strLower d) "звонок") = true)) ∧
    ((_generate_subtasks d = generic_template) ↔
      ((containsSub (strLower d) "написать" || containsSub (strLower d) "создать") = false ∧
       (containsSub (strLower d) "встреча" || containsSub (strLower d) "звонок") = false)) ∧
    (∀ (full : String) (catRes : Except AIError TaskCategoryEnum)
       (timeRes : Except AIError Int),
      (analyze_gather full catRes timeRes).subtasks = (_generate_subtasks full).take 3) ∧
    (_generate_subtasks d).length = 4 ∧
    ((_generate_subtasks d).take 3).length = 3 := by
  have hrep : _generate_subtasks d =
      (if (containsSub (strLower d) "написать" || containsSub (strLower d) "создать") = true
       then writing_template
       else if (containsSub (strLower d) "встреча" || containsSub (strLower d) "звонок") = true
       then meeting_template
       else generic_template) := rfl
  refine ⟨?_, ?_, ?_, fun _ _ _ => rfl, ?_, ?_⟩ <;>
    · rw [hrep]
      cases h1 : (containsSub (strLower d) "написать" || containsSub (strLower d) "создать") <;>
        cases h2 : (containsSub (strLower d) "встреча" || containsSub (strLower d) "звонок") <;>
        decide

/-- C1: analyze builds one text from the optional title and the description
(title, a period and a space, then the description, when a non-empty title
is given; the description alone otherwise); a branch outcome that is an
exception is replaced, field-locally, by the corresponding deterministic
heuristic on that same text, the other field being unaffected by the
substitution; and the suggested priority is derived from the duration
estimate after the substitution. -/
theorem c1_analyze_fallback_isolation (description : String) (title : Option String)
    (catRes : Except AIError TaskCategoryEnum) (timeRes : Except AIError Int) :
    ((analyze_task description title catRes timeRes).category =
      (match catRes with
       | .ok c => c
       | .error _ => _get_mock_category (full_text title description))) ∧
    ((analyze_task description title catRes timeRes).estimated_time =
      (match timeRes with
       | .ok t => t
       | .error _ => _get_mock_estimated_time (full_text title description))) ∧
    ((analyze_task description title catRes timeRes).suggested_priority =
      _determine_priority (analyze_task description title catRes timeRes).estimated_time) ∧
    (∀ c c' : Except AIError TaskCategoryEnum,
      (analyze_task description title c timeRes).estimated_time =
        (analyze_task description title c' timeRes).estimated_time) ∧
    (∀ t t' : Except AIError Int,
      (analyze_task description title catRes t).category =
        (analyze_task description title catRes t').category) ∧
    (full_text none description = description) ∧
    (∀ t : String, full_text (some t) description =
      if t = "" then description else t ++ ". " ++ description) := by
  exact ⟨rfl, rfl, rfl, fun _ _ => rfl, fun _ _ => rfl, rfl, fun _ => rfl⟩

/-- C10: the constructor sets the mock flag unconditionally, whatever the
configuration holds, so the call wrapper short-circuits to None with zero
HTTP requests, categorize and estimate are extensionally the deterministic
heuristics with zero HTTP requests, and the full analysis pipeline issues
zero HTTP requests and equals the gather of the two heuristic values. -/
theorem c10_mock_mode_refinement (cfg : Settings) (remote remote' : Nat → RemoteResp)
    (d : String) (title : Option String) :
    (AIService.init cfg).use_mock = true ∧
    AIService._call_ai_api (AIService.init cfg) remote = (.success none, 0, []) ∧
    categorize_task (AIService.init cfg) remote d = (_get_mock_category d, 0) ∧
    estimate_time (AIService.init cfg) remote d = (_get_mock_estimated_time d, 0) ∧
    (analyze_task_run (AIService.init cfg) remote remote' d title).2 = 0 ∧
    (analyze_task_run (AIService.init cfg) remote remote' d title).1 =
      analyze_gather (full_text title d)
        (.ok (_get_mock_category (full_text title d)))
        (.ok (_get_mock_estimated_time (full_text title d))) := by
  exact ⟨rfl, rfl, rfl, rfl, rfl, rfl⟩

/-- Service instance with the mock flag cleared, exercising the live path of
the call wrapper (reachable only by mutating use_mock after construction, as
the repository's test fixture does). -/
def live_service : AIService := { AIService.init settings with use_mock := false }

/-- C2: contrary to the claim, a 402 response does not surface as a
quota-exceeded failure and is not free of retries: the AIQuotaExceededError
raised for it is caught by the same function's generic except-clause, so
with a remote answering 402 on every request the wrapper issues 3 requests
(sleeping 4 then 8 seconds) and raises the generic
HTTPException(500, "AI service unavailable"); the dedicated quota handler in
categorize_task is therefore unreachable, and the caller still falls back to
the deterministic heuristic only through its catch-all clause. -/
theorem c2_quota_402_swallowed_and_retried :
    AIService._call_ai_api live_service (fun _ => .status 402) =
      (.failure (.httpException 500 "AI service unavailable"), 3, [4, 8]) ∧
    (∀ d : String, categorize_task live_service (fun _ => .status 402) d =
      (_get_mock_category d, 3)) := by
  exact ⟨by decide, fun _ => rfl⟩

/-- C3: contrary to the claim, the attempt budget is not 3 requests in total:
the inner while-loop makes 3 attempts and the tenacity decorator re-invokes
the whole function on the escaping AITimeoutError, so a remote timing out on
every request costs 9 HTTP requests, with inner waits of 4 then 8 seconds
per invocation (not 2 doubling capped at 10) and the modelled decorator
waits in between; a remote answering 500 on every request costs 3 requests
with consecutive waits 2, 4, 4, 8 (the handler sleep and the fall-through
sleep both run) and surfaces as HTTPException(502, ...), which the decorator
does not retry. -/
theorem c3_retry_budget_exceeded :
    AIService._call_ai_api live_service (fun _ => .timeout) =
      (.failure (.timeoutErr "AI service timeout after multiple retries"), 9,
        [4, 8, 2, 4, 8, 4, 4, 8]) ∧
    AIService._call_ai_api live_service (fun _ => .status 500) =
      (.failure (.httpException 502 "AI service error: 500"), 3, [2, 4, 4, 8]) := by
  exact ⟨by decide, by decide⟩

/-- C9 counterexample: the five-character description "hello" passes the
handlers' five-character check on trimmed length, yet the request is
rejected for length by schema validation (min_length 10) before either
handler runs — refuting the claim that every description of 5 or more
characters passes the length precondition of categorize and estimate-time. -/
theorem c9_counterexample_five_chars :
    categorize_length_check "hello" none = .rejected422 ∧
    estimate_time_length_check "hello" none = .rejected422 ∧
    5 ≤ pyLen "hello" ∧
    5 ≤ pyLen (pyStrip "hello") := by
  exact ⟨by decide, by decide, by decide, by decide⟩

/-- Validity of the request schema expressed as the conjunction it decides. -/
theorem ai_analysis_request_valid_iff (d : String) (t : Option String) :
    (ai_analysis_request_valid d t = true) ↔
      (10 ≤ pyLen d ∧ pyLen d ≤ 2000 ∧ pyLen (t.getD "") ≤ 200) := by
  cases t <;>
    simp [ai_analysis_request_valid, Option.getD, and_assoc,
      show pyLen "" = 0 from rfl]

/-- Acceptance of the common validation shape of the three handlers, for an
arbitrary trimmed-length threshold. -/
theorem length_check_accepted_iff (thr : Nat) (d : String) (t : Option String) :
    ((if ai_analysis_request_valid d t = false then RequestCheck.rejected422
      else if d = "" ∨ pyLen (pyStrip d) < thr then RequestCheck.rejected400
      else RequestCheck.accepted) = RequestCheck.accepted) ↔
      (10 ≤ pyLen d ∧ pyLen d ≤ 2000 ∧ pyLen (t.getD "") ≤ 200 ∧
        thr ≤ pyLen (pyStrip d)) := by
  cases hv : ai_analysis_request_valid d t with
  | false =>
    rw [if_pos rfl]
    constructor
    · intro h; cases h
    · rintro ⟨h1, h2, h3, _⟩
      have hcontra := (ai_analysis_request_valid_iff d t).mpr ⟨h1, h2, h3⟩
      rw [hv] at hcontra; cases hcontra
  | true =>
    rw [if_neg (by simp)]
    have hval := (ai_analysis_request_valid_iff d t).mp hv
    by_cases hshort : d = "" ∨ pyLen (pyStrip d) < thr
    · rw [if_pos hshort]
      constructor
      · intro h; cases h
      · rintro ⟨h1, _, _, h4⟩
        rcases hshort with he | hs
        · rw [he] at h1
          have h0 : pyLen "" = 0 := rfl
          omega
        · omega
    · rw [if_neg hshort]
      push_neg at hshort
      exact ⟨fun _ => ⟨hval.1, hval.2.1, hval.2.2, hshort.2⟩, fun _ => rfl⟩

/-- C9 amended: a request to the categorize or estimate-time endpoint is
accepted by the length-related validation exactly when the raw description
has between 10 and 2000 characters (the schema minimum of 10 applies to all
three endpoints), the optional title at most 200, and the trimmed
description at least 5; for the analyze endpoint the trimmed threshold is
10; descriptions of 5 to 9 characters are rejected by the schema although
they satisfy the handlers' 5-character check. -/
theorem c9_length_gate_amended (d : String) (t : Option String) :
    ((categorize_length_check d t = .accepted) ↔
      (10 ≤ pyLen d ∧ pyLen d ≤ 2000 ∧ pyLen (t.getD "") ≤ 200 ∧
        5 ≤ pyLen (pyStrip d))) ∧
    estimate_time_length_check d t = categorize_length_check d t ∧
    ((analyze_length_check d t = .accepted) ↔
      (10 ≤ pyLen d ∧ pyLen d ≤ 2000 ∧ pyLen (t.getD "") ≤ 200 ∧
        10 ≤ pyLen (pyStrip d))) :=
  ⟨length_check_accepted_iff 5 d t, rfl, length_check_accepted_iff 10 d t⟩

/-- C8: resolving the current user fails exactly when the token fails to
decode (malformed, wrong signing key or algorithm, or expiry at or before
now) or when no user row carries a username equal to the subject claim; the
outcome is always either some user or the one credentials_exception, so the
failure reveals nothing about which condition broke; and a token issued at
time T with the default 30-minute window is accepted at T+29 and rejected
at T+31. -/
theorem c8_current_user_auth_failures (cfg : Settings) (users : List User)
    (now : Nat) (token : Token) :
    ((∃ u, get_current_user cfg users now token = .ok u) ∨
      get_current_user cfg users now token = .error credentials_exception) ∧
    ((get_current_user cfg users now token = .error credentials_exception) ↔
      (jwt_decode cfg.SECRET_KEY cfg.ALGORITHM now token = none ∨
       ∃ p, jwt_decode cfg.SECRET_KEY cfg.ALGORITHM now token = some p ∧
         ∀ u ∈ users, p.sub ≠ some u.username)) ∧
    (jwt_decode cfg.SECRET_KEY cfg.ALGORITHM now Token.malformed = none) ∧
    (∀ (k a : String) (p : TokenPayload),
      (jwt_decode cfg.SECRET_KEY cfg.ALGORITHM now (Token.signed k a p) = none) ↔
        (¬(k = cfg.SECRET_KEY ∧ a = cfg.ALGORITHM) ∨ p.exp ≤ now)) ∧
    (∀ T : Nat, get_current_user settings [⟨1, "alice"⟩] (T + 29)
      (create_access_token settings T "alice") = .ok ⟨1, "alice"⟩) ∧
    (∀ T : Nat, get_current_user settings [⟨1, "alice"⟩] (T + 31)
      (create_access_token settings T "alice") = .error credentials_exception) := by
  refine ⟨?_, ?_, rfl, ?_, ?_, ?_⟩
  · simp only [get_current_user]
    cases jwt_decode cfg.SECRET_KEY cfg.ALGORITHM now token with
    | none => exact Or.inr rfl
    | some p =>
      cases hs : p.sub with
      | none => exact Or.inr (by simp [hs])
      | some username =>
        cases hf : users.find? (fun u => u.username == username) with
        | none => exact Or.inr (by simp [hs, hf])
        | some u => exact Or.inl ⟨u, by simp [hs, hf]⟩
  · simp only [get_current_user]
    cases hd : jwt_decode cfg.SECRET_KEY cfg.ALGORITHM now token with
    | none => simp
    | some p =>
      cases hs : p.sub with
      | none =>
        apply iff_of_true
        · simp [hs]
        · exact Or.inr ⟨p, rfl, fun u hu heq => by rw [hs] at heq; cases heq⟩
      | some username =>
        cases hf : users.find? (fun u => u.username == username) with
        | none =>
          apply iff_of_true
          · simp [hs, hf]
          · refine Or.inr ⟨p, rfl, fun u hu heq => ?_⟩
            rw [hs] at heq
            have hv : username = u.username := Option.some.inj heq
            have hne := List.find?_eq_none.mp hf u hu
            simp [hv] at hne
        | some u =>
          apply iff_of_false
          · simp [hs, hf]
          · rintro (hbad | ⟨p', hp', hall⟩)
            · cases hbad
            · obtain rfl : p = p' := Option.some.inj hp'
              have hmem := List.mem_of_find?_eq_some hf
              have hv : u.username = username := by
                have hpred := List.find?_some hf
                simpa using hpred
              exact hall u hmem (by rw [hs, hv])
  · intro k a p
    simp only [jwt_decode]
    by_cases hc : k = cfg.SECRET_KEY ∧ a = cfg.ALGORITHM ∧ now < p.exp
    · rw [if_pos hc]
      apply iff_of_false
      · simp
      · rcases hc with ⟨h1, h2, h3⟩
        rintro (hbad | hexp)
        · exact hbad ⟨h1, h2⟩
        · omega
    · rw [if_neg hc]
      apply iff_of_true rfl
      by_cases h1 : k = cfg.SECRET_KEY
      · by_cases h2 : a = cfg.ALGORITHM
        · right
          by_contra hlt
          push_neg at hlt
          exact hc ⟨h1, h2, hlt⟩
        · exact Or.inl fun hka => h2 hka.2
      · exact Or.inl fun hka => h1 hka.1
  · intro T
    have hA : settings.ACCESS_TOKEN_EXPIRE_MINUTES = 30 := rfl
    have h29 : T + 29 < T + 30 := by omega
    simp [get_current_user, create_access_token, jwt_decode, hA, h29, List.find?]
  · intro T
    have hA : settings.ACCESS_TOKEN_EXPIRE_MINUTES = 30 := rfl
    have h31 : ¬(T + 31 < T + 30) := by omega
    simp [get_current_user, create_access_token, jwt_decode, hA, h31]

end STP
